import Mathlib

/-!
Verification development for the HungerBox Vision Analysis app (`app.py`).

The program is a single-file Streamlit application: `main` collects four
inputs (API key, cafeteria name, question, image upload), validates their
presence, re-encodes the image to PNG, base64-encodes it, issues one API
call, parses the JSON response, and renders a report via `display_results`.

The shallow embedding below models:
  * the dynamically typed JSON response as a record of `Option` fields,
    with string-or-list fields as the sum type `StrOrList`;
  * Streamlit display calls (`st.markdown`, `st.success`, `st.error`,
    `st.info`, `st.write`) as constructors of an output type `Out`, so a
    rendering run is a `List Out`;
  * the external effects (PIL's PNG encoder, the OpenAI API call, JSON
    parsing) as an environment `Env` of fallible functions, so that the
    `try`/`except` boundary of `main` becomes explicit `Except` plumbing;
  * the concrete transport encoding (base64 over bytes, and a lossless
    raster serialization standing in for PIL's PNG codec, which is not
    part of this repository).
-/

/-- A Streamlit display call. Each constructor is one `st.*` output
primitive used by the app, carrying the string it displays. -/
inductive Out where
  | markdown : String → Out
  | success : String → Out
  | error : String → Out
  | info : String → Out
  | write : String → Out
deriving DecidableEq, Repr

/-- A JSON value that the app reads from the parsed response dict and that
may be either a string or a list of strings (the app branches on
`isinstance(x, list)` for `tags`, and compares `image_quality_issues`
against the list `["none"]`). -/
inductive StrOrList where
  | str : String → StrOrList
  | list : List String → StrOrList
deriving DecidableEq, Repr

/-- The parsed API response (`result = json.loads(...)` in `main`). Each
field is `Option`al because the app reads every field with `result.get(key,
default)`; `none` models an absent key. -/
structure AnalysisResultJson where
  criteria_met : Option String
  explanation : Option String
  improvements : Option String
  severity : Option String
  image_quality_issues : Option StrOrList
  quality_assessment : Option String
  tags : Option StrOrList
deriving DecidableEq, Repr

/-- A response object with every field absent. -/
def emptyResult : AnalysisResultJson :=
  ⟨none, none, none, none, none, none, none⟩

/-- The `severity_color` dict of `display_results` (app.py lines 127-132),
modelled as a partial map: `none` is a key that is not in the dict. -/
def severity_color (s : String) : Option String :=
  if s = "Critical" then some "severity-critical"
  else if s = "Major" then some "severity-major"
  else if s = "Minor" then some "severity-minor"
  else if s = "None" then some ""
  else none

/-- The compliance status icon expression of app.py line 146:
`"✅" if status == "Yes" else "❌" if status == "No" else "❓"`. -/
def statusIcon (status : String) : String :=
  if status = "Yes" then "✅" else if status = "No" then "❌" else "❓"

/-- Python's `", ".join(x)`: joins a list of strings with `", "`; applied
to a string it iterates over the string's characters. -/
def pyJoinComma : StrOrList → String
  | StrOrList.list l => String.intercalate ", " l
  | StrOrList.str s => String.intercalate ", " (s.toList.map (fun c => String.mk [c]))

/-- `display_results` (app.py lines 125-185): renders the compliance
report. Translated display call by display call, in source order; layout
containers (`st.container`, `st.columns`, `st.expander`) do not emit text
and are omitted. -/
def display_results (result : AnalysisResultJson)
    (cafeteria_name question analysis_date : String) : List Out :=
  let status := result.criteria_met.getD "Unknown"
  let status_icon := statusIcon status
  let severity := result.severity.getD "Unknown"
  let color_class := (severity_color severity).getD ""
  let tags := result.tags.getD (StrOrList.list [])
  let tagsText :=
    match tags with
    | StrOrList.list l => String.intercalate ", " l
    | StrOrList.str s => s
  let issues := result.image_quality_issues.getD (StrOrList.list ["none"])
  let improvements := result.improvements.getD ""
  [Out.markdown "## 📋 Compliance Report",
   Out.markdown ("**Cafeteria:** " ++ cafeteria_name),
   Out.markdown ("**Analysis Date:** " ++ analysis_date),
   Out.markdown ("**Compliance Status:** " ++ status_icon ++ " " ++ status),
   Out.markdown ("**Severity Level:** <span class=\x27" ++ color_class ++ "\x27>"
     ++ severity ++ "</span>"),
   Out.markdown ("**Tags:** 🏷️ " ++ tagsText),
   (if issues = StrOrList.list ["none"] then
      Out.success "✅ No quality issues detected"
    else
      Out.error ("⚠️ Detected issues: " ++ pyJoinComma issues)),
   Out.info ("Quality Impact Assessment: " ++ result.quality_assessment.getD ""),
   Out.markdown ("**Assessment Question:** " ++ question),
   Out.markdown "### Explanation",
   Out.write (result.explanation.getD "No explanation provided")]
  ++ (if improvements ≠ "" then
        [Out.markdown "### 🛠️ Improvement Suggestions", Out.write improvements]
      else
        [Out.success "🌟 No improvements needed - all standards met"])

/-! ### Transport encoding: base64 (`base64.b64encode` in app.py line 73) -/

/-- The standard base64 alphabet, in index order. -/
def b64Alphabet : List Char :=
  "ABCDEFGHIJKLMNOPQRSTUVWXYZabcdefghijklmnopqrstuvwxyz0123456789+/".toList

/-- The base64 character for a sextet value. -/
def b64Char (n : Nat) : Char := b64Alphabet.getD n '*'

/-- The sextet value of a base64 character, `none` for a character outside
the alphabet. -/
def b64Val (c : Char) : Option Nat :=
  let i := b64Alphabet.indexOf c
  if i < 64 then some i else none

/-- Standard base64 encoding of a byte sequence, with `=` padding
(`base64.b64encode`). -/
def b64EncodeBytes : List Nat → List Char
  | a :: b :: c :: rest =>
    b64Char (a / 4) :: b64Char (a % 4 * 16 + b / 16) ::
    b64Char (b % 16 * 4 + c / 64) :: b64Char (c % 64) :: b64EncodeBytes rest
  | [a, b] =>
    [b64Char (a / 4), b64Char (a % 4 * 16 + b / 16), b64Char (b % 16 * 4), '=']
  | [a] =>
    [b64Char (a / 4), b64Char (a % 4 * 16), '=', '=']
  | [] => []

/-- Standard base64 decoding, the inverse of `b64EncodeBytes`; `none` on
input that is not well-formed base64. -/
def b64DecodeChars : List Char → Option (List Nat)
  | [] => some []
  | [_] => none
  | [_, _] => none
  | [_, _, _] => none
  | c1 :: c2 :: c3 :: c4 :: rest =>
    match b64Val c1, b64Val c2 with
    | some v1, some v2 =>
      if rest = [] ∧ c3 = '=' ∧ c4 = '=' then
        some [v1 * 4 + v2 / 16]
      else if rest = [] ∧ c4 = '=' then
        match b64Val c3 with
        | some v3 => some [v1 * 4 + v2 / 16, v2 % 16 * 16 + v3 / 4]
        | none => none
      else
        match b64Val c3, b64Val c4, b64DecodeChars rest with
        | some v3, some v4, some bs =>
          some ((v1 * 4 + v2 / 16) :: (v2 % 16 * 16 + v3 / 4) ::
                (v3 % 4 * 64 + v4) :: bs)
        | _, _, _ => none
    | _, _ => none

/-! ### Spec-modelled raster and PNG codec -/

/-- A decoded raster image: what `Image.open(uploaded_image)` produces,
abstracted to its dimensions and pixel bytes. -/
structure Raster where
  width : Nat
  height : Nat
  pixels : List Nat
deriving DecidableEq, Repr

/-- Well-formedness of a raster: dimensions fit in 32 bits and pixel data
is bytes. -/
def Raster.wf (r : Raster) : Prop :=
  r.width < 4294967296 ∧ r.height < 4294967296 ∧ ∀ p ∈ r.pixels, p < 256

instance (r : Raster) : Decidable r.wf := by
  unfold Raster.wf
  infer_instance

/-- Big-endian 4-byte encoding of a natural number. -/
def natToBytes4 (n : Nat) : List Nat :=
  [n / 16777216 % 256, n / 65536 % 256, n / 256 % 256, n % 256]

/-- Modelled from the spec: PIL's PNG encoder invoked by
`image.save(buffered, format="PNG")` (app.py line 72) is not part of this
repository; the spec calls it a "lossless re-encoding to PNG" of the
decoded raster. It is modelled as a lossless byte serialization of the
raster: a fixed-size header carrying the dimensions followed by the raw
pixel bytes. -/
def pngEncode (r : Raster) : List Nat :=
  natToBytes4 r.width ++ natToBytes4 r.height ++ r.pixels

/-- Modelled from the spec: the PNG decoder matching `pngEncode`, i.e.
what `Image.open` would recover from the transported PNG bytes. -/
def pngDecode : List Nat → Option Raster
  | w1 :: w2 :: w3 :: w4 :: h1 :: h2 :: h3 :: h4 :: px =>
    some ⟨((w1 * 256 + w2) * 256 + w3) * 256 + w4,
          ((h1 * 256 + h2) * 256 + h3) * 256 + h4, px⟩
  | _ => none

/-- The transport form built in app.py lines 71-73: re-encode the raster
to PNG, then base64-encode the bytes (`base64.b64encode(...).decode()`). -/
def transportEncode (r : Raster) : List Char :=
  b64EncodeBytes (pngEncode r)

/-- Decoding the transport form back to a raster: base64-decode, then
PNG-decode. -/
def transportDecode (cs : List Char) : Option Raster :=
  (b64DecodeChars cs).bind pngDecode

/-! ### The `main` submission flow -/

/-- The four form inputs of `main` (app.py lines 47-58). An empty string
models a field the user left blank (falsy in the Python `all([...])`
check); `uploaded_image = none` models a missing upload, and `some r`
carries the raster decoded by `Image.open` for the preview. -/
structure Submission where
  api_key : String
  cafeteria_name : String
  question : String
  uploaded_image : Option Raster

/-- The fixed prompt template of app.py lines 79-96 with the user's
question interpolated verbatim. -/
def buildPrompt (question : String) : String :=
  "\n                You are a food safety manager analyzing a cafeteria image.\n"
  ++ "                Question to evaluate: " ++ question ++ "\n\n"
  ++ "                IMPORTANT INSTRUCTIONS:\n"
  ++ "                1. First assess image quality (darkness/blurriness)\n"
  ++ "                2. For blank/empty area requests, dark images may be compliant\n"
  ++ "                3. Only mark dark/blurry images as compliant if they satisfy specific criteria\n\n"
  ++ "                Provide JSON analysis with:\n"
  ++ "                - criteria_met: Yes/No/Unable\n"
  ++ "                - explanation: 2-3 sentence assessment\n"
  ++ "                - improvements: actionable suggestions\n"
  ++ "                - severity: Critical/Major/Minor/None\n"
  ++ "                - image_quality_issues: list of issues\n"
  ++ "                - quality_assessment: image quality impact\n"
  ++ "                - tags: 3-5 descriptive tags\n"
  ++ "                "

/-- The external effects used inside the `try` block of `main`, each
fallible: PIL's PNG save (line 72), the chat-completion call including the
content extraction (lines 99-114), and `json.loads` (line 114). An
`Except.error e` models the call raising an exception whose `str(e)` is
`e`. -/
structure Env where
  pngSave : Raster → Except String (List Nat)
  apiCall : String → String → List Char → Except String String
  jsonParse : String → Except String AnalysisResultJson

/-- The observable outcome of one submission: the display calls made, and
how many image-encoding and outbound-API attempts were started. -/
structure Trace where
  outputs : List Out
  encode_attempts : Nat
  api_attempts : Nat
deriving DecidableEq, Repr

/-- The submission branch of `main` (app.py lines 63-122): validate the
four inputs (`if not all([...])` → error and return), then run the
analysis pipeline inside `try`, catching every exception at the single
top-level `except Exception` and displaying
`f"Analysis failed: {str(e)}"`. -/
def mainSubmit (env : Env) (s : Submission) (analysis_date : String) : Trace :=
  match s.uploaded_image with
  | none =>
    ⟨[Out.error "⚠️ Please fill all required fields and upload an image"], 0, 0⟩
  | some image =>
    if s.api_key = "" ∨ s.cafeteria_name = "" ∨ s.question = "" then
      ⟨[Out.error "⚠️ Please fill all required fields and upload an image"], 0, 0⟩
    else
      match env.pngSave image with
      | Except.error e => ⟨[Out.error ("Analysis failed: " ++ e)], 1, 0⟩
      | Except.ok bytes =>
        match env.apiCall s.api_key (buildPrompt s.question) (b64EncodeBytes bytes) with
        | Except.error e => ⟨[Out.error ("Analysis failed: " ++ e)], 1, 1⟩
        | Except.ok content =>
          match env.jsonParse content with
          | Except.error e => ⟨[Out.error ("Analysis failed: " ++ e)], 1, 1⟩
          | Except.ok result =>
            ⟨Out.success "✅ Analysis Complete!" ::
              display_results result s.cafeteria_name s.question analysis_date,
             1, 1⟩

/-- The first exception raised in the analysis pipeline for a given
environment and inputs (`none` when every stage succeeds). -/
def pipelineError (env : Env) (api_key question : String) (image : Raster) :
    Option String :=
  match env.pngSave image with
  | Except.error e => some e
  | Except.ok bytes =>
    match env.apiCall api_key (buildPrompt question) (b64EncodeBytes bytes) with
    | Except.error e => some e
    | Except.ok content =>
      match env.jsonParse content with
      | Except.error e => some e
      | Except.ok _ => none

/-- A sequence of independent submissions against the same environment:
Streamlit reruns the script per interaction and `main` keeps no state
across runs, so a session is the per-submission traces. -/
def runSession (env : Env) (subs : List (Submission × String)) : List Trace :=
  subs.map (fun p => mainSubmit env p.1 p.2)

/-- An environment in which every external call succeeds: PIL encodes the
raster, the API answers, and the answer parses to an empty object. -/
def okEnv : Env where
  pngSave := fun r => Except.ok (pngEncode r)
  apiCall := fun _ _ _ => Except.ok "response"
  jsonParse := fun _ => Except.ok emptyResult

/-- An environment in which the outbound API call raises an exception with
text `boom`. -/
def failEnv : Env where
  pngSave := fun r => Except.ok (pngEncode r)
  apiCall := fun _ _ _ => Except.error "boom"
  jsonParse := fun _ => Except.ok emptyResult

/-- A one-pixel raster used as a concrete uploaded image. -/
def testRaster : Raster := ⟨1, 1, [7]⟩

/-! ### Library-level lemmas -/

theorem b64Val_b64Char : ∀ n < 64, b64Val (b64Char n) = some n := by decide

theorem b64Char_ne_pad : ∀ n < 64, b64Char n ≠ '=' := by decide

theorem b64_roundtrip :
    ∀ l : List Nat, (∀ b ∈ l, b < 256) →
      b64DecodeChars (b64EncodeBytes l) = some l
  | [], _ => rfl
  | [a], h => by
    have ha : a < 256 := h a (by simp)
    have h1 : b64Val (b64Char (a / 4)) = some (a / 4) :=
      b64Val_b64Char _ (by omega)
    have h2 : b64Val (b64Char (a % 4 * 16)) = some (a % 4 * 16) :=
      b64Val_b64Char _ (by omega)
    simp [b64EncodeBytes, b64DecodeChars, h1, h2]
    omega
  | [a, b], h => by
    have ha : a < 256 := h a (by simp)
    have hb : b < 256 := h b (by simp)
    have h1 : b64Val (b64Char (a / 4)) = some (a / 4) :=
      b64Val_b64Char _ (by omega)
    have h2 : b64Val (b64Char (a % 4 * 16 + b / 16)) = some (a % 4 * 16 + b / 16) :=
      b64Val_b64Char _ (by omega)
    have h3 : b64Val (b64Char (b % 16 * 4)) = some (b % 16 * 4) :=
      b64Val_b64Char _ (by omega)
    have hne : b64Char (b % 16 * 4) ≠ '=' := b64Char_ne_pad _ (by omega)
    simp [b64EncodeBytes, b64DecodeChars, h1, h2, h3, hne]
    omega
  | [a, b, c], h => by
    have ha : a < 256 := h a (by simp)
    have hb : b < 256 := h b (by simp)
    have hc : c < 256 := h c (by simp)
    have h1 : b64Val (b64Char (a / 4)) = some (a / 4) :=
      b64Val_b64Char _ (by omega)
    have h2 : b64Val (b64Char (a % 4 * 16 + b / 16)) = some (a % 4 * 16 + b / 16) :=
      b64Val_b64Char _ (by omega)
    have h3 : b64Val (b64Char (b % 16 * 4 + c / 64)) = some (b % 16 * 4 + c / 64) :=
      b64Val_b64Char _ (by omega)
    have h4 : b64Val (b64Char (c % 64)) = some (c % 64) :=
      b64Val_b64Char _ (by omega)
    have hne : b64Char (c % 64) ≠ '=' := b64Char_ne_pad _ (by omega)
    simp [b64EncodeBytes, b64DecodeChars, h1, h2, h3, h4, hne]
    refine ⟨by omega, by omega, by omega⟩
  | a :: b :: c :: d :: rest, h => by
    have ha : a < 256 := h a (by simp)
    have hb : b < 256 := h b (by simp)
    have hc : c < 256 := h c (by simp)
    have ih := b64_roundtrip (d :: rest) (by
      intro x hx
      exact h x (by simp [hx]))
    have h1 : b64Val (b64Char (a / 4)) = some (a / 4) :=
      b64Val_b64Char _ (by omega)
    have h2 : b64Val (b64Char (a % 4 * 16 + b / 16)) = some (a % 4 * 16 + b / 16) :=
      b64Val_b64Char _ (by omega)
    have h3 : b64Val (b64Char (b % 16 * 4 + c / 64)) = some (b % 16 * 4 + c / 64) :=
      b64Val_b64Char _ (by omega)
    have h4 : b64Val (b64Char (c % 64)) = some (c % 64) :=
      b64Val_b64Char _ (by omega)
    have hne : b64Char (c % 64) ≠ '=' := b64Char_ne_pad _ (by omega)
    simp [b64EncodeBytes, b64DecodeChars, h1, h2, h3, h4, hne, ih]
    refine ⟨by omega, by omega, by omega⟩

theorem png_roundtrip (r : Raster) (h : r.wf) : pngDecode (pngEncode r) = some r := by
  obtain ⟨w, ht, px⟩ := r
  obtain ⟨hw, hh, -⟩ := h
  simp only [Raster.wf] at hw hh
  simp only [pngEncode, natToBytes4, List.cons_append, List.nil_append, pngDecode,
    Option.some.injEq, Raster.mk.injEq]
  refine ⟨by omega, by omega, trivial⟩

theorem pngEncode_bytes_lt (r : Raster) (h : r.wf) :
    ∀ b ∈ pngEncode r, b < 256 := by
  obtain ⟨hw, hh, hp⟩ := h
  intro b hb
  simp only [pngEncode, List.mem_append] at hb
  rcases hb with (h1 | h1) | h1
  · simp only [natToBytes4, List.mem_cons, List.not_mem_nil, or_false] at h1
    rcases h1 with rfl | rfl | rfl | rfl <;> omega
  · simp only [natToBytes4, List.mem_cons, List.not_mem_nil, or_false] at h1
    rcases h1 with rfl | rfl | rfl | rfl <;> omega
  · exact hp b h1

/-! ### Claim theorems -/

/-- C1: for every submission in which any one of the four required inputs
(API credential, cafeteria/site name, question text, uploaded image) is
missing or empty, `main` reports the user-visible validation error and
does not attempt image encoding or the outbound API call. -/
theorem c1_missing_input_no_call :
    ∀ (env : Env) (s : Submission) (d : String),
      s.api_key = "" ∨ s.cafeteria_name = "" ∨ s.question = "" ∨
        s.uploaded_image = none →
      mainSubmit env s d =
        ⟨[Out.error "⚠️ Please fill all required fields and upload an image"],
         0, 0⟩ := by
  intro env s d h
  cases him : s.uploaded_image with
  | none => simp [mainSubmit, him]
  | some image =>
    have hs : s.api_key = "" ∨ s.cafeteria_name = "" ∨ s.question = "" := by
      rcases h with h | h | h | h
      · exact Or.inl h
      · exact Or.inr (Or.inl h)
      · exact Or.inr (Or.inr h)
      · rw [him] at h
        exact absurd h (by simp)
    simp only [mainSubmit, him, if_pos hs]

theorem c1_missing_input_no_call_witness :
    mainSubmit okEnv ⟨"", "Cafe", "Is the floor clean?", some testRaster⟩ "d" =
      ⟨[Out.error "⚠️ Please fill all required fields and upload an image"],
       0, 0⟩ :=
  c1_missing_input_no_call okEnv
    ⟨"", "Cafe", "Is the floor clean?", some testRaster⟩ "d" (Or.inl rfl)

/-- C2: every exception raised during the analysis stage (image
re-encoding, the API call, or JSON parsing) is caught at the single
top-level boundary of `main` and becomes the one user-facing message
`Analysis failed: <text>` carrying the underlying error text; the API call
is attempted at most once (no retry), and a failed run does not affect any
subsequent submission of the stateless session. -/
theorem c2_exception_single_boundary :
    ∀ (env : Env) (s : Submission) (d : String) (image : Raster) (e : String),
      s.uploaded_image = some image →
      ¬(s.api_key = "" ∨ s.cafeteria_name = "" ∨ s.question = "") →
      pipelineError env s.api_key s.question image = some e →
      (mainSubmit env s d).outputs = [Out.error ("Analysis failed: " ++ e)] ∧
      (mainSubmit env s d).encode_attempts ≤ 1 ∧
      (mainSubmit env s d).api_attempts ≤ 1 ∧
      ∀ (env2 : Env) (pre : List (Submission × String)) (s2 : Submission)
        (d2 : String),
        runSession env2 (pre ++ [(s2, d2)]) =
          runSession env2 pre ++ [mainSubmit env2 s2 d2] := by
  intro env s d image e him hv herr
  have key : mainSubmit env s d = ⟨[Out.error ("Analysis failed: " ++ e)], 1, 0⟩ ∨
      mainSubmit env s d = ⟨[Out.error ("Analysis failed: " ++ e)], 1, 1⟩ := by
    cases hp : env.pngSave image with
    | error e1 =>
      simp only [pipelineError, hp, Option.some.injEq] at herr
      subst herr
      exact Or.inl (by simp only [mainSubmit, him, if_neg hv, hp])
    | ok bytes =>
      cases ha : env.apiCall s.api_key (buildPrompt s.question)
          (b64EncodeBytes bytes) with
      | error e1 =>
        simp only [pipelineError, hp, ha, Option.some.injEq] at herr
        subst herr
        exact Or.inr (by simp only [mainSubmit, him, if_neg hv, hp, ha])
      | ok content =>
        cases hj : env.jsonParse content with
        | error e1 =>
          simp only [pipelineError, hp, ha, hj, Option.some.injEq] at herr
          subst herr
          exact Or.inr (by simp only [mainSubmit, him, if_neg hv, hp, ha, hj])
        | ok result =>
          simp [pipelineError, hp, ha, hj] at herr
  rcases key with hm | hm <;>
    exact ⟨by simp [hm], by simp [hm], by simp [hm],
      fun env2 pre s2 d2 => by simp [runSession]⟩

theorem c2_exception_single_boundary_witness :
    (mainSubmit failEnv ⟨"k", "Cafe", "Q", some testRaster⟩ "d").outputs =
      [Out.error ("Analysis failed: " ++ "boom")] ∧
    (mainSubmit failEnv ⟨"k", "Cafe", "Q", some testRaster⟩ "d").encode_attempts ≤ 1 ∧
    (mainSubmit failEnv ⟨"k", "Cafe", "Q", some testRaster⟩ "d").api_attempts ≤ 1 ∧
    ∀ (env2 : Env) (pre : List (Submission × String)) (s2 : Submission)
      (d2 : String),
      runSession env2 (pre ++ [(s2, d2)]) =
        runSession env2 pre ++ [mainSubmit env2 s2 d2] :=
  c2_exception_single_boundary failEnv ⟨"k", "Cafe", "Q", some testRaster⟩ "d"
    testRaster "boom" rfl (by decide) (by decide)

/-- C3 counterexample: the claim says a missing `image_quality_issues`
field defaults to the empty list at render time; in the code the default
is the sentinel list `["none"]`. Rendering a response without the field
produces the positive confirmation, while rendering a response whose field
is the empty list produces the warning branch — so the substituted default
is observably not the empty list. -/
theorem c3_counterexample :
    (display_results emptyResult "Cafe" "Q" "D")[6]? =
      some (Out.success "✅ No quality issues detected") ∧
    (display_results
        ⟨none, none, none, none, some (StrOrList.list []), none, none⟩
        "Cafe" "Q" "D")[6]? =
      some (Out.error "⚠️ Detected issues: ") := by
  decide

/-- C3 (amended): for every parsed response object in which an individual
field is absent, the renderer substitutes the code's sentinel default for
that field at render time rather than failing: `"Unknown"` for
`criteria_met` and `severity`, `"No explanation provided"` for
`explanation`, the single-element sentinel list `["none"]` for
`image_quality_issues` (so the positive confirmation is rendered), and the
empty list for `tags`; no missing individual field causes an error. -/
theorem c3_render_defaults :
    ∀ (r : AnalysisResultJson) (c q d : String),
      (r.criteria_met = none →
        Out.markdown "**Compliance Status:** ❓ Unknown" ∈
          display_results r c q d) ∧
      (r.severity = none →
        Out.markdown "**Severity Level:** <span class=\x27\x27>Unknown</span>" ∈
          display_results r c q d) ∧
      (r.explanation = none →
        Out.write "No explanation provided" ∈ display_results r c q d) ∧
      (r.image_quality_issues = none →
        Out.success "✅ No quality issues detected" ∈ display_results r c q d) ∧
      (r.tags = none →
        Out.markdown "**Tags:** 🏷️ " ∈ display_results r c q d) := by
  intro r c q d
  have h6 : "**Tags:** 🏷️ " ++ String.intercalate ", " ([] : List String) =
      "**Tags:** 🏷️ " := rfl
  refine ⟨fun h => ?_, fun h => ?_, fun h => ?_, fun h => ?_, fun h => ?_⟩ <;>
    simp [display_results, h, statusIcon, severity_color, h6]

theorem c3_render_defaults_witness :
    Out.markdown "**Compliance Status:** ❓ Unknown" ∈
      display_results emptyResult "c" "q" "d" ∧
    Out.markdown "**Severity Level:** <span class=\x27\x27>Unknown</span>" ∈
      display_results emptyResult "c" "q" "d" ∧
    Out.write "No explanation provided" ∈ display_results emptyResult "c" "q" "d" ∧
    Out.success "✅ No quality issues detected" ∈
      display_results emptyResult "c" "q" "d" ∧
    Out.markdown "**Tags:** 🏷️ " ∈ display_results emptyResult "c" "q" "d" :=
  let h := c3_render_defaults emptyResult "c" "q" "d"
  ⟨h.1 rfl, h.2.1 rfl, h.2.2.1 rfl, h.2.2.2.1 rfl, h.2.2.2.2 rfl⟩

/-- C4: the rendered compliance status uses the affirmative icon exactly
when `criteria_met` is `"Yes"`, the negative icon exactly when it is
`"No"`, and the question icon for every other value; the rendered line
shows the (possibly unrecognized) value verbatim next to the icon. -/
theorem c4_status_icon :
    (∀ s : String, statusIcon s = "✅" ↔ s = "Yes") ∧
    (∀ s : String, statusIcon s = "❌" ↔ s = "No") ∧
    (∀ s : String, s ≠ "Yes" → s ≠ "No" → statusIcon s = "❓") ∧
    ∀ (r : AnalysisResultJson) (c q d : String),
      Out.markdown ("**Compliance Status:** " ++
          statusIcon (r.criteria_met.getD "Unknown") ++ " " ++
          r.criteria_met.getD "Unknown") ∈
        display_results r c q d := by
  refine ⟨fun s => ?_, fun s => ?_, fun s h1 h2 => ?_, fun r c q d => ?_⟩
  · unfold statusIcon
    constructor
    · intro h
      by_cases h1 : s = "Yes"
      · exact h1
      · rw [if_neg h1] at h
        by_cases h2 : s = "No"
        · rw [if_pos h2] at h
          exact absurd h (by decide)
        · rw [if_neg h2] at h
          exact absurd h (by decide)
    · intro h
      rw [if_pos h]
  · unfold statusIcon
    constructor
    · intro h
      by_cases h1 : s = "Yes"
      · rw [if_pos h1] at h
        exact absurd h (by decide)
      · rw [if_neg h1] at h
        by_cases h2 : s = "No"
        · exact h2
        · rw [if_neg h2] at h
          exact absurd h (by decide)
    · intro h
      by_cases h1 : s = "Yes"
      · exact absurd h1 (by rw [h]; decide)
      · rw [if_neg h1, if_pos h]
  · rw [statusIcon, if_neg h1, if_neg h2]
  · simp [display_results]

theorem c4_status_icon_witness :
    statusIcon "Partial" = "❓" ∧
    Out.markdown ("**Compliance Status:** " ++ statusIcon "Partial" ++ " " ++
        "Partial") ∈
      display_results ⟨some "Partial", none, none, none, none, none, none⟩
        "c" "q" "d" :=
  ⟨c4_status_icon.2.2.1 "Partial" (by decide) (by decide),
   c4_status_icon.2.2.2 ⟨some "Partial", none, none, none, none, none, none⟩
     "c" "q" "d"⟩

/-- C5: the severity-to-style mapping gives each of `"Critical"`,
`"Major"`, `"Minor"` its own distinct, non-empty highlight class, while
`"None"` and every unrecognized value get the empty class; the severity
value itself appears in the rendered line. -/
theorem c5_severity_style :
    (severity_color "Critical").getD "" = "severity-critical" ∧
    (severity_color "Major").getD "" = "severity-major" ∧
    (severity_color "Minor").getD "" = "severity-minor" ∧
    ("severity-critical" ≠ "severity-major" ∧
     "severity-critical" ≠ "severity-minor" ∧
     "severity-major" ≠ "severity-minor" ∧
     "severity-critical" ≠ "" ∧ "severity-major" ≠ "" ∧
     "severity-minor" ≠ "") ∧
    (severity_color "None").getD "" = "" ∧
    (∀ s : String, s ≠ "Critical" → s ≠ "Major" → s ≠ "Minor" →
      (severity_color s).getD "" = "") ∧
    ∀ (r : AnalysisResultJson) (c q d : String),
      Out.markdown ("**Severity Level:** <span class=\x27" ++
          (severity_color (r.severity.getD "Unknown")).getD "" ++ "\x27>" ++
          r.severity.getD "Unknown" ++ "</span>") ∈
        display_results r c q d := by
  refine ⟨by decide, by decide, by decide, by decide, by decide,
    fun s h1 h2 h3 => ?_, fun r c q d => ?_⟩
  · rw [severity_color, if_neg h1, if_neg h2, if_neg h3]
    by_cases h4 : s = "None"
    · rw [if_pos h4]
      rfl
    · rw [if_neg h4]
      rfl
  · simp [display_results]

theorem c5_severity_style_witness :
    (severity_color "Bogus").getD "" = "" ∧
    Out.markdown ("**Severity Level:** <span class=\x27" ++
        (severity_color "Major").getD "" ++ "\x27>" ++ "Major" ++ "</span>") ∈
      display_results ⟨none, none, none, some "Major", none, none, none⟩
        "c" "q" "d" :=
  ⟨c5_severity_style.2.2.2.2.2.1 "Bogus" (by decide) (by decide) (by decide),
   c5_severity_style.2.2.2.2.2.2 ⟨none, none, none, some "Major", none, none, none⟩
     "c" "q" "d"⟩

/-- C6: a `tags` value that is a list of strings is rendered joined with
`", "`, and a `tags` value that is already a string is rendered
unchanged. -/
theorem c6_tags_render :
    ∀ (r : AnalysisResultJson) (c q d : String),
      (∀ l, r.tags = some (StrOrList.list l) →
        Out.markdown ("**Tags:** 🏷️ " ++ String.intercalate ", " l) ∈
          display_results r c q d) ∧
      (∀ s, r.tags = some (StrOrList.str s) →
        Out.markdown ("**Tags:** 🏷️ " ++ s) ∈ display_results r c q d) := by
  intro r c q d
  constructor
  · intro l hl
    simp [display_results, hl]
  · intro s hs
    simp [display_results, hs]

theorem c6_tags_render_witness :
    Out.markdown ("**Tags:** 🏷️ " ++ "a, b, c") ∈
      display_results
        ⟨none, none, none, none, none, none,
         some (StrOrList.list ["a", "b", "c"])⟩ "c" "q" "d" ∧
    Out.markdown ("**Tags:** 🏷️ " ++ "a, b, c") ∈
      display_results
        ⟨none, none, none, none, none, none,
         some (StrOrList.str "a, b, c")⟩ "c" "q" "d" :=
  ⟨(c6_tags_render
      ⟨none, none, none, none, none, none,
       some (StrOrList.list ["a", "b", "c"])⟩ "c" "q" "d").1
      ["a", "b", "c"] rfl,
   (c6_tags_render
      ⟨none, none, none, none, none, none,
       some (StrOrList.str "a, b, c")⟩ "c" "q" "d").2 "a, b, c" rfl⟩

/-- C7: an `image_quality_issues` list equal to the sentinel `["none"]`
renders the positive confirmation; every other list renders a warning
containing the elements joined with `", "`. -/
theorem c7_issue_list_render :
    ∀ (r : AnalysisResultJson) (c q d : String),
      (r.image_quality_issues = some (StrOrList.list ["none"]) →
        Out.success "✅ No quality issues detected" ∈ display_results r c q d) ∧
      (∀ l, r.image_quality_issues = some (StrOrList.list l) → l ≠ ["none"] →
        Out.error ("⚠️ Detected issues: " ++ String.intercalate ", " l) ∈
          display_results r c q d) := by
  intro r c q d
  constructor
  · intro h
    simp [display_results, h]
  · intro l h hne
    simp [display_results, h, pyJoinComma, hne]

theorem c7_issue_list_render_witness :
    Out.success "✅ No quality issues detected" ∈
      display_results
        ⟨none, none, none, none, some (StrOrList.list ["none"]), none, none⟩
        "c" "q" "d" ∧
    Out.error ("⚠️ Detected issues: " ++ "blurry, underexposed") ∈
      display_results
        ⟨none, none, none, none,
         some (StrOrList.list ["blurry", "underexposed"]), none, none⟩
        "c" "q" "d" :=
  ⟨(c7_issue_list_render
      ⟨none, none, none, none, some (StrOrList.list ["none"]), none, none⟩
      "c" "q" "d").1 rfl,
   (c7_issue_list_render
      ⟨none, none, none, none,
       some (StrOrList.list ["blurry", "underexposed"]), none, none⟩
      "c" "q" "d").2 ["blurry", "underexposed"] rfl (by decide)⟩

/-- C8: rendering is deterministic: two invocations of `display_results`
on identical result, site name, question and timestamp inputs produce
identical output — the renderer is a pure function of those four
inputs. -/
theorem c8_render_deterministic :
    ∀ (r1 r2 : AnalysisResultJson) (n1 n2 q1 q2 d1 d2 : String),
      r1 = r2 → n1 = n2 → q1 = q2 → d1 = d2 →
      display_results r1 n1 q1 d1 = display_results r2 n2 q2 d2 := by
  intro r1 r2 n1 n2 q1 q2 d1 d2 h1 h2 h3 h4
  rw [h1, h2, h3, h4]

theorem c8_render_deterministic_witness :
    display_results emptyResult "Cafe" "Q" "D" =
      display_results emptyResult "Cafe" "Q" "D" :=
  c8_render_deterministic emptyResult emptyResult "Cafe" "Cafe" "Q" "Q" "D" "D"
    rfl rfl rfl rfl

/-- C9: the transport encoding of app.py lines 71-73 — re-encode the
decoded raster to PNG, then base64 — is lossless: decoding the transport
form (base64-decode, then PNG-decode) recovers the original raster
exactly, for every well-formed raster regardless of the uploaded file's
format. -/
theorem c9_transport_roundtrip :
    ∀ r : Raster, r.wf → transportDecode (transportEncode r) = some r := by
  intro r h
  unfold transportDecode transportEncode
  rw [b64_roundtrip (pngEncode r) (pngEncode_bytes_lt r h)]
  exact png_roundtrip r h

theorem c9_transport_roundtrip_witness :
    transportDecode (transportEncode testRaster) = some testRaster :=
  c9_transport_roundtrip testRaster (by decide)

/-- C10: an `image_quality_issues` value that is a string (not a list) is
not equal to the sentinel list, so the warning branch runs and Python's
`", ".join` iterates the string character by character: the warning shows
the string's characters joined with `", "` rather than the string
itself. -/
theorem c10_string_issues_chars :
    ∀ (r : AnalysisResultJson) (c q d : String) (s : String),
      r.image_quality_issues = some (StrOrList.str s) →
      Out.error ("⚠️ Detected issues: " ++
          String.intercalate ", " (s.toList.map (fun ch => String.mk [ch]))) ∈
        display_results r c q d := by
  intro r c q d s h
  simp [display_results, h, pyJoinComma]

theorem c10_string_issues_chars_witness :
    Out.error ("⚠️ Detected issues: " ++ "b, l, u, r") ∈
      display_results
        ⟨none, none, none, none, some (StrOrList.str "blur"), none, none⟩
        "c" "q" "d" :=
  c10_string_issues_chars
    ⟨none, none, none, none, some (StrOrList.str "blur"), none, none⟩
    "c" "q" "d" "blur" rfl
